import Mathlib

/-!
Shallow embedding of the configuration artifacts of the `pruna` repository:
the GitHub Actions workflow `.github/workflows/linting.yaml` (which also
carries the pre-commit configuration), the `pyproject.toml` manifest, and the
two tutorial notebooks `docs/tutorials/llms.ipynb` and
`docs/tutorials/asr_whisper.ipynb`.

The only executable behavior in the repository is the `check-pruna-pro`
pre-commit hook, whose entry is a bash pipeline over the staged change set:
it lists staged files with their git status, drops the rows whose status
field is D (deleted), and greps the remaining files for the literal string
pruna_pro; a match makes the entry exit 1, otherwise it exits 0.  The hook is
dispatched by pre-commit only when some staged, non-deleted file of type
text matches the regular expression anchored at the start of the path,
namely a path beginning with src/.  We embed the change set, the pipeline,
and the dispatch, together with a unified-diff model needed to compare the
behavior with a diff-line reading of the guard.
-/

namespace PrunaRepo

/-! ### String utilities

Substring and prefix tests are defined over `List Char` so that concrete
instances reduce by `decide`. -/

/-- `listStartsWith s p` is true when `p` is an initial segment of `s`. -/
def listStartsWith : List Char → List Char → Bool
  | _, [] => true
  | [], _ :: _ => false
  | c :: cs, p :: ps => c = p && listStartsWith cs ps

/-- `listHasSub s p` is true when `p` occurs contiguously inside `s`. -/
def listHasSub : List Char → List Char → Bool
  | [], pat => pat.isEmpty
  | c :: rest, pat => listStartsWith (c :: rest) pat || listHasSub rest pat

/-- `strContains s pat` is true when `pat` occurs as a substring of `s`. -/
def strContains (s pat : String) : Bool :=
  listHasSub s.toList pat.toList

/-- `strStartsWith s p` is true when the string `s` begins with `p`. -/
def strStartsWith (s p : String) : Bool :=
  listStartsWith s.toList p.toList

/-! ### Staged change sets

`git diff --cached --name-status` reports one row per staged file: a status
letter and the path.  We model the statuses the guard distinguishes (added,
modified, deleted).  A staged file carries the content the index replaces
(`oldContent`) and the content now in the working tree (`content`), each as a
list of lines; `grep` run on a path reads the working-tree lines. -/

inductive GitStatus
  | A
  | M
  | D
deriving DecidableEq

structure StagedFile where
  path : String
  status : GitStatus
  isText : Bool
  oldContent : List String
  content : List String
deriving DecidableEq

/-- The status letter of the file is D. -/
def isDeleted (f : StagedFile) : Bool :=
  match f.status with
  | GitStatus.D => true
  | _ => false

/-- The forbidden literal the guard greps for. -/
def needle : String := "pruna_pro"

/-- `grep` finds the needle in the working-tree content of the file. -/
def fileHasNeedle (f : StagedFile) : Bool :=
  f.content.any (fun l => strContains l needle)

/-- The awk stage of the entry: it keeps exactly the rows of
`git diff --cached --name-status` whose status field is not D, printing
their paths. -/
def awkNonDeleted (cs : List StagedFile) : List StagedFile :=
  cs.filter (fun f => !isDeleted f)

/-- Exit status of `xargs grep -q` on the listed files: 0 when some file
contains the needle, 1 otherwise (also when the list is empty, since `grep`
then reads the exhausted pipe). -/
def grepQExit (fs : List StagedFile) : Nat :=
  if fs.any fileHasNeedle then 0 else 1

/-- Exit status of the hook entry, a bash command of the shape
`pipeline && block-exiting-1 || exit 0`: when the grep succeeds the first
branch runs and exits 1, otherwise the second branch exits 0. -/
def checkPrunaProEntryExit (cs : List StagedFile) : Nat :=
  if grepQExit (awkNonDeleted cs) = 0 then 1 else 0

/-- The hook declares `types: [text]` and `files:` a pattern anchored at the
start of the path requiring the prefix src/.  A staged file matches the
hook's file filter when it is a text file whose path begins with src/. -/
def matchesHookFilter (f : StagedFile) : Bool :=
  f.isText && strStartsWith f.path "src/"

/-- pre-commit dispatches a hook only when some staged file matches its file
filter; its staged-file list excludes deletions, so a deleted file never
triggers the hook. -/
def hookTriggered (cs : List StagedFile) : Bool :=
  cs.any (fun f => !isDeleted f && matchesHookFilter f)

/-- Observable exit status of the guard on a staged change set: 0 (accept)
when the hook is not dispatched, otherwise the exit status of the entry. -/
def checkPrunaProResult (cs : List StagedFile) : Nat :=
  if hookTriggered cs then checkPrunaProEntryExit cs else 0

/-! ### The staged diff

`git diff --cached` prints, per staged file, header lines naming the path and
then unified hunks: removed lines prefixed with a minus sign, inserted lines
with a plus sign, and up to three unchanged context lines around each change.
Unchanged lines farther than three lines from every change are not part of
the diff.  We model the line diff of two contents by a minimal edit script
and then keep exactly the lines within distance three of a change.  Hunk
separator lines carry only line numbers and, optionally, a section heading
drawn from a preceding unindented line; they are omitted here, and concrete
change sets used below keep the needle away from unindented lines so the
omission does not affect which diffs mention the needle. -/

inductive DiffTag
  | del
  | ins
  | keep
deriving DecidableEq

/-- Minimal edit script between two lists of lines, with a fuel argument
bounding the recursion depth so the definition is structural: each output
entry tags a line as removed, inserted, or common to both sides. -/
def diffScriptAux : Nat → List String → List String → List (DiffTag × String)
  | _, [], ys => ys.map (fun y => (DiffTag.ins, y))
  | _, x :: xs, [] => (x :: xs).map (fun x => (DiffTag.del, x))
  | 0, _ :: _, _ :: _ => []
  | fuel + 1, x :: xs, y :: ys =>
    if x = y then (DiffTag.keep, x) :: diffScriptAux fuel xs ys
    else
      let d1 := (DiffTag.del, x) :: diffScriptAux fuel xs (y :: ys)
      let d2 := (DiffTag.ins, y) :: diffScriptAux fuel (x :: xs) ys
      if d1.length ≤ d2.length then d1 else d2

/-- Minimal edit script between two lists of lines; the fuel, the sum of the
two lengths, decreases by one at every recursive step, so it never runs
out. -/
def diffScript (xs ys : List String) : List (DiffTag × String) :=
  diffScriptAux (xs.length + ys.length) xs ys

/-- The entry at position `j` of the script is a change (not a common line). -/
def changedAt (ds : List (DiffTag × String)) (j : Nat) : Bool :=
  match ds.get? j with
  | some (t, _) => t ≠ DiffTag.keep
  | none => false

/-- Position `i` lies within the three-line context window of some change. -/
def nearChange (ds : List (DiffTag × String)) (i : Nat) : Bool :=
  (List.range ds.length).any (fun j => changedAt ds j && i ≤ j + 3 && j ≤ i + 3)

/-- A script entry printed as a diff line: minus, plus, or space prefix. -/
def renderDiffLine : DiffTag × String → String
  | (DiffTag.del, s) => "-" ++ s
  | (DiffTag.ins, s) => "+" ++ s
  | (DiffTag.keep, s) => " " ++ s

/-- The hunk lines of a script: every changed line together with the common
lines within three positions of a change, in order. -/
def hunkLines (ds : List (DiffTag × String)) : List String :=
  (List.range ds.length).filterMap (fun i =>
    match ds.get? i with
    | some e => if nearChange ds i then some (renderDiffLine e) else none
    | none => none)

/-- The side of the file the index replaces: empty for an added file. -/
def oldSide (f : StagedFile) : List String :=
  match f.status with
  | GitStatus.A => []
  | _ => f.oldContent

/-- The staged side of the file: empty for a deleted file. -/
def newSide (f : StagedFile) : List String :=
  match f.status with
  | GitStatus.D => []
  | _ => f.content

/-- The staged diff of one file: the header line naming its path, followed by
its hunk lines. -/
def fileDiff (f : StagedFile) : List String :=
  ("diff --git a/" ++ f.path ++ " b/" ++ f.path) :: hunkLines (diffScript (oldSide f) (newSide f))

/-- The full staged diff of a change set, file by file. -/
def stagedDiff (cs : List StagedFile) : List String :=
  (cs.map fileDiff).flatten

/-- Some line of the staged diff contains the needle. -/
def stagedDiffHasNeedle (cs : List StagedFile) : Bool :=
  (stagedDiff cs).any (fun l => strContains l needle)

/-! ### The CI workflow

`.github/workflows/linting.yaml` declares one trigger and one job, `linting`,
whose steps are transcribed below in order.  A step either `uses` a published
action or `run`s a shell snippet. -/

structure CiTrigger where
  event : String
  branches : List String
deriving DecidableEq

/-- The `on:` block of the workflow. -/
def ciTrigger : CiTrigger :=
  ⟨"pull_request", ["main"]⟩

structure CiStep where
  name : String
  action : Option String
  run : Option String
deriving DecidableEq

/-- The steps of the `linting` job, in file order. -/
def ciSteps : List CiStep :=
  [ ⟨"Checkout code", some "actions/checkout@v3", none⟩,
    ⟨"Set up Python", some "actions/setup-python@v3", none⟩,
    ⟨"Install Poetry", none,
      some "curl -sSL https://install.python-poetry.org | python3 -\necho \"$\x7bHOME\x7d/.local/bin\" >> $GITHUB_PATH"⟩,
    ⟨"Configure Poetry to not create virtual environments", none,
      some "poetry config virtualenvs.create false"⟩,
    ⟨"Run ruff on Pruna code", some "astral-sh/ruff-action@v3", none⟩,
    ⟨"Install dependencies", none, some "pip install -e .[tests]"⟩,
    ⟨"Remove .so files", none, some "find . -name \"*.so\" -delete"⟩,
    ⟨"Run mypy on Pruna code", none, some "mypy --show-traceback src/pruna"⟩,
    ⟨"Run docstrings on Pruna code", none, some "pytest -m \"style\""⟩ ]

/-- What a step of the job does, judged from the action it uses or the
command its shell snippet invokes. -/
inductive StepKind
  | checkout
  | envSetup
  | lint
  | depInstall
  | cleanup
  | typeCheck
  | docTest
  | otherKind
deriving DecidableEq

/-- Classify a step: the checkout and Python-setup actions, the two
Poetry steps (environment setup), the ruff action (lint), the pip install
step, the step deleting compiled .so files, the mypy step, and the pytest
style-marker step. -/
def stepKind (s : CiStep) : StepKind :=
  match s.action with
  | some a =>
    if a = "actions/checkout@v3" then StepKind.checkout
    else if a = "actions/setup-python@v3" then StepKind.envSetup
    else if a = "astral-sh/ruff-action@v3" then StepKind.lint
    else StepKind.otherKind
  | none =>
    match s.run with
    | some r =>
      if strContains r "poetry" then StepKind.envSetup
      else if strContains r "pip install" then StepKind.depInstall
      else if strContains r "-delete" then StepKind.cleanup
      else if strContains r "mypy" then StepKind.typeCheck
      else if strContains r "pytest" then StepKind.docTest
      else StepKind.otherKind
    | none => StepKind.otherKind

/-- Collapse adjacent equal kinds, so that consecutive steps of one phase
count as that phase once. -/
def collapseAdj : List StepKind → List StepKind
  | [] => []
  | [k] => [k]
  | k1 :: k2 :: rest =>
    if k1 = k2 then collapseAdj (k2 :: rest) else k1 :: collapseAdj (k2 :: rest)

/-- The phases of the job, in order: its step kinds with adjacent repeats
merged. -/
def ciPhases : List StepKind :=
  collapseAdj (ciSteps.map stepKind)

/-! ### The pre-commit hooks

The pre-commit configuration (second document of the file) declares three
hooks: the ruff hook from the ruff-pre-commit mirror, the mypy hook from the
mirrors-mypy repository, and the local `check-pruna-pro` hook whose behavior
is embedded above. -/

structure PcHook where
  repo : String
  id : String
deriving DecidableEq

/-- The hooks of the pre-commit configuration, in file order. -/
def pcHooks : List PcHook :=
  [ ⟨"https://github.com/astral-sh/ruff-pre-commit", "ruff"⟩,
    ⟨"https://github.com/pre-commit/mirrors-mypy", "mypy"⟩,
    ⟨"local", "check-pruna-pro"⟩ ]

/-- The first whitespace-delimited word of a string. -/
def firstWord (s : String) : String :=
  String.mk (s.toList.takeWhile (fun c => c ≠ ' ' && c ≠ '\n'))

/-- The tool a CI step invokes: published actions are mapped to the tool they
wrap (the ruff action to ruff, the checkout and setup-python actions to
themselves), a shell step to the command word that starts its snippet. -/
def stepTool (s : CiStep) : Option String :=
  match s.action with
  | some a =>
    if a = "astral-sh/ruff-action@v3" then some "ruff"
    else if a = "actions/checkout@v3" then some "actions/checkout"
    else if a = "actions/setup-python@v3" then some "actions/setup-python"
    else none
  | none =>
    match s.run with
    | some r => some (firstWord r)
    | none => none

/-- The tool a pre-commit hook invokes: the ruff hook runs ruff, the mypy
hook runs mypy, and the local guard entry is a bash command. -/
def hookTool (h : PcHook) : Option String :=
  if h.id = "ruff" then some "ruff"
  else if h.id = "mypy" then some "mypy"
  else if h.id = "check-pruna-pro" then some "bash"
  else none

/-- Taxonomy of the tools appearing in the workflow and the hooks. -/
inductive ToolCat
  | linter
  | typeChecker
  | testRunner
  | packaging
  | shell
  | vcsOrInfra
  | otherTool
deriving DecidableEq

/-- Category of each tool name occurring in this repository's automation. -/
def toolCat (t : String) : ToolCat :=
  if t = "ruff" then ToolCat.linter
  else if t = "mypy" then ToolCat.typeChecker
  else if t = "pytest" then ToolCat.testRunner
  else if t = "pip" then ToolCat.packaging
  else if t = "poetry" then ToolCat.packaging
  else if t = "curl" then ToolCat.vcsOrInfra
  else if t = "find" then ToolCat.shell
  else if t = "bash" then ToolCat.shell
  else if t = "actions/checkout" then ToolCat.vcsOrInfra
  else if t = "actions/setup-python" then ToolCat.vcsOrInfra
  else ToolCat.otherTool

/-- A tool is a lint or type tool when its category is linter or type
checker. -/
def isLintTypeTool (t : String) : Bool :=
  toolCat t = ToolCat.linter || toolCat t = ToolCat.typeChecker

/-- The lint/type tools the CI workflow's steps invoke, in order. -/
def ciLintTypeTools : List String :=
  (ciSteps.filterMap stepTool).filter isLintTypeTool

/-- The lint/type tools the pre-commit hooks invoke, in order. -/
def pcLintTypeTools : List String :=
  (pcHooks.filterMap hookTool).filter isLintTypeTool

/-! ### The dependency manifest

`pyproject.toml` declares the dependencies of the package under
`[tool.poetry.dependencies]`; the ones marked `optional = true` are listed
here, and `[tool.poetry.extras]` groups them into named bundles, transcribed
in file order with their package lists as written (the full bundle lists
autoawq twice). -/

/-- The dependencies declared with `optional = true`, in file order.  The
stable-fast-pruna entry is a multi-variant declaration whose variants are
all optional. -/
def optionalDeps : List String :=
  [ "nexfort", "ruff", "onediff", "autoawq", "jupyterlab", "notebook",
    "pre-commit", "build", "twine", "pyc-wheel", "pytest-cov", "coverage",
    "pytest", "docutils", "xformers", "stable-fast-pruna",
    "numpydoc-validation", "mypy", "types-PyYAML" ]

/-- The `[tool.poetry.extras]` table: bundle name and package list, in file
order. -/
def extras : List (String × List String) :=
  [ ("stable-fast", ["xformers", "stable-fast-pruna"]),
    ("stable-fast-cu11", ["xformers", "stable-fast-pruna"]),
    ("onediff", ["onediff", "nexfort"]),
    ("autoawq", ["autoawq"]),
    ("full", ["autoawq", "xformers", "stable-fast-pruna", "autoawq", "onediff", "nexfort"]),
    ("dev", ["jupyterlab", "notebook", "pre-commit", "build", "twine", "pyc-wheel", "ruff", "numpydoc-validation"]),
    ("tests", ["pytest", "pytest-cov", "coverage", "docutils", "jupyterlab", "numpydoc-validation", "mypy", "ruff", "types-PyYAML"]),
    ("cpu", []) ]

/-- The package list of the named extras bundle, empty when no bundle of
that name is declared. -/
def extraPackages (name : String) : List String :=
  match extras.find? (fun e => e.fst = name) with
  | some e => e.snd
  | none => []

/-- A bundle of that name is declared in the extras table. -/
def extraDeclared (name : String) : Bool :=
  extras.any (fun e => e.fst = name)

/-- Every package of the named bundle is a declared optional dependency. -/
def extraAllOptional (name : String) : Bool :=
  (extraPackages name).all (fun p => optionalDeps.contains p)

/-! ### The supplied files

The supplied material consists of five configuration documents: the GitHub
workflow and the pre-commit configuration (both YAML, 47 and 23 lines),
the `pyproject.toml` manifest (TOML, 171 lines), and the two tutorial
notebooks (JSON notebook markup, 170 and 194 lines). -/

inductive FileFormat
  | toml
  | yaml
  | json
  | pythonSource
deriving DecidableEq

structure RepoFile where
  name : String
  lineCount : Nat
  format : FileFormat
deriving DecidableEq

/-- The supplied files with their line counts and formats. -/
def suppliedFiles : List RepoFile :=
  [ ⟨".github/workflows/linting.yaml", 47, FileFormat.yaml⟩,
    ⟨".pre-commit-config.yaml", 23, FileFormat.yaml⟩,
    ⟨"pyproject.toml", 171, FileFormat.toml⟩,
    ⟨"docs/tutorials/llms.ipynb", 170, FileFormat.json⟩,
    ⟨"docs/tutorials/asr_whisper.ipynb", 194, FileFormat.json⟩ ]

/-- Total number of supplied lines. -/
def totalLineCount : Nat :=
  (suppliedFiles.map RepoFile.lineCount).sum

/-- A format is configuration or notebook markup (not program source). -/
def isConfigFormat : FileFormat → Bool
  | FileFormat.toml => true
  | FileFormat.yaml => true
  | FileFormat.json => true
  | FileFormat.pythonSource => false

/-! ### The tutorial notebooks

The Python statements of the code cells of the two tutorial notebooks,
transcribed in order.  Statements that touch the `pruna` API are transcribed
structurally; the remaining statements (model loading, input preparation,
plain assignments) are kept as source text so the order of events is the
notebook's own. -/

inductive NbStmt
  /-- A shell escape installing a package. -/
  | pipInstall (pkg : String)
  /-- `from module import names`, or a plain import when `names` is empty. -/
  | importNames (module : String) (names : List String)
  /-- `var = SomeModel.from_pretrained(...)`, loading a pretrained model. -/
  | loadModel (var : String) (call : String)
  /-- `var = SmashConfig()`: construction of the configuration object. -/
  | constructConfig (var : String)
  /-- `var.meth(arg)`: a method call on the configuration object. -/
  | configMethod (var : String) (meth : String) (arg : String)
  /-- `var[key] = value` with string literals for key and value. -/
  | configKeyAssign (var : String) (key : String) (value : String)
  /-- `resultVar = smash(k1=v1, ..., kn=vn)`: the optimize call, with its
  keyword arguments in order as name-value pairs. -/
  | callSmash (resultVar : String) (kwargs : List (String × String))
  /-- A statement running inference through the smashed object `objVar`. -/
  | runInference (objVar : String) (code : String)
  /-- Any other statement, kept as source text. -/
  | otherStmt (code : String)
deriving DecidableEq

/-- The code-cell statements of `docs/tutorials/llms.ipynb`, in order. -/
def llmsNotebook : List NbStmt :=
  [ NbStmt.pipInstall "pruna",
    NbStmt.importNames "transformers" ["AutoModelForCausalLM", "AutoTokenizer"],
    NbStmt.otherStmt "model_id = facebook/opt-125m",
    NbStmt.loadModel "model" "AutoModelForCausalLM.from_pretrained(model_id, torch_dtype=auto).cuda()",
    NbStmt.otherStmt "text = The 45th president of the United States of America is",
    NbStmt.otherStmt "tokenizer = AutoTokenizer.from_pretrained(model_id)",
    NbStmt.otherStmt "ins = tokenizer(text, return_tensors=pt).to(cuda)",
    NbStmt.importNames "pruna" ["SmashConfig"],
    NbStmt.constructConfig "smash_config",
    NbStmt.configMethod "smash_config" "add_tokenizer" "model_id",
    NbStmt.configMethod "smash_config" "add_data" "WikiText",
    NbStmt.configKeyAssign "smash_config" "quantizer" "gptq",
    NbStmt.importNames "pruna" ["smash"],
    NbStmt.callSmash "smashed_model" [("model", "model"), ("smash_config", "smash_config")],
    NbStmt.runInference "smashed_model" "tokenizer.batch_decode(smashed_model.generate(**ins))" ]

/-- The code-cell statements of `docs/tutorials/asr_whisper.ipynb`, in
order.  The commented-out weight-bits assignment of cell 2 is not a
statement and is not transcribed. -/
def whisperNotebook : List NbStmt :=
  [ NbStmt.pipInstall "pruna",
    NbStmt.importNames "torch" [],
    NbStmt.importNames "transformers" ["AutoModelForSpeechSeq2Seq"],
    NbStmt.otherStmt "device = cuda:0 if torch.cuda.is_available() else cpu",
    NbStmt.otherStmt "torch_dtype = torch.float16 if torch.cuda.is_available() else torch.float32",
    NbStmt.otherStmt "model_id = openai/whisper-large-v3",
    NbStmt.loadModel "model" "AutoModelForSpeechSeq2Seq.from_pretrained(model_id, torch_dtype=torch_dtype, low_cpu_mem_usage=True, use_safetensors=True)",
    NbStmt.otherStmt "model.to(device)",
    NbStmt.importNames "pruna" ["SmashConfig"],
    NbStmt.constructConfig "smash_config",
    NbStmt.configMethod "smash_config" "add_processor" "model_id",
    NbStmt.configKeyAssign "smash_config" "compiler" "c_whisper",
    NbStmt.importNames "pruna" ["smash"],
    NbStmt.callSmash "smashed_model" [("model", "model"), ("smash_config", "smash_config")],
    NbStmt.importNames "datasets" ["load_dataset"],
    NbStmt.importNames "transformers" ["AutoProcessor"],
    NbStmt.otherStmt "processor = AutoProcessor.from_pretrained(model_id)",
    NbStmt.otherStmt "dataset = load_dataset(distil-whisper/librispeech_long, clean, split=validation)",
    NbStmt.otherStmt "sample = dataset[0][audio]",
    NbStmt.otherStmt "input_features = processor(sample[array], sampling_rate=sample[sampling_rate], return_tensors=pt).input_features",
    NbStmt.otherStmt "input_features = input_features.cuda().half()",
    NbStmt.runInference "smashed_model" "results = smashed_model(input_features)",
    NbStmt.otherStmt "processor.decode(results, skip_special_tokens=False)" ]

/-- The tutorial notebooks of the repository. -/
def tutorialNotebooks : List (List NbStmt) :=
  [llmsNotebook, whisperNotebook]

/-- The statement constructs the configuration object with `SmashConfig()`. -/
def isConstructConfig : NbStmt → Bool
  | NbStmt.constructConfig _ => true
  | _ => false

/-- The statement sets a named option on the configuration by string key
assignment. -/
def isKeyAssign : NbStmt → Bool
  | NbStmt.configKeyAssign _ _ _ => true
  | _ => false

/-- Every string-key assignment of the notebook sets a quantizer or a
compiler name. -/
def keyAssignsNameAlgo (nb : List NbStmt) : Bool :=
  nb.all (fun s =>
    match s with
    | NbStmt.configKeyAssign _ k _ => k = "quantizer" || k = "compiler"
    | _ => true)

/-- The statement is a `smash` call. -/
def isSmashCall : NbStmt → Bool
  | NbStmt.callSmash _ _ => true
  | _ => false

/-- Every `smash` call of the notebook passes exactly the keyword arguments
`model` and `smash_config`, in that order. -/
def smashKwargsExact (nb : List NbStmt) : Bool :=
  nb.all (fun s =>
    match s with
    | NbStmt.callSmash _ kwargs => kwargs.map Prod.fst = ["model", "smash_config"]
    | _ => true)

/-- The statement runs inference through the object bound to `v`. -/
def isInferOn (v : String) : NbStmt → Bool
  | NbStmt.runInference w _ => w = v
  | _ => false

/-- Some `smash` call is followed, later in the notebook, by an inference
statement on the object the call returned. -/
def smashThenInfer : List NbStmt → Bool
  | [] => false
  | NbStmt.callSmash rv _ :: rest => rest.any (isInferOn rv) || smashThenInfer rest
  | _ :: rest => smashThenInfer rest

/-- The call shape the tutorials share: the configuration object is
constructed with `SmashConfig()`, some named option is set by string key
assignment and every such key names a quantizer or a compiler, `smash` is
called and every such call passes exactly the keyword arguments `model` and
`smash_config`, and the returned object is then used to run inference. -/
def callShapeOK (nb : List NbStmt) : Bool :=
  nb.any isConstructConfig &&
  nb.any isKeyAssign &&
  keyAssignsNameAlgo nb &&
  nb.any isSmashCall &&
  smashKwargsExact nb &&
  smashThenInfer nb

/-! ### Concrete change sets -/

/-- A staged modification of one file under src/ whose working-tree content
mentions the needle on an indented line five lines away from the only edited
line: the three-line context window of the edit does not reach it, so no
line of the staged diff mentions the needle, while `grep` on the file
does. -/
def farNeedleChangeSet : List StagedFile :=
  [ ⟨"src/a.py", GitStatus.M, true,
      ["def f():", "    s = pruna_pro", "", "", "", "    return 1"],
      ["def f():", "    s = pruna_pro", "", "", "", "    return 2"]⟩ ]

/-- A staged change set pairing a clean modification under src/ with a
modification of a file outside src/ whose content mentions the needle. -/
def crossChangeSet : List StagedFile :=
  [ ⟨"src/clean.py", GitStatus.M, true, ["x = 1"], ["x = 2"]⟩,
    ⟨"README.md", GitStatus.M, true, ["intro"], ["see pruna_pro docs"]⟩ ]

/-- A staged change set touching only a file outside src/, whose content
mentions the needle. -/
def outsideOnlyChangeSet : List StagedFile :=
  [ ⟨"README.md", GitStatus.M, true, [], ["see pruna_pro docs"]⟩ ]

/-- A staged change set consisting of one deletion of a file under src/
whose former content mentioned the needle. -/
def deletionOnlyChangeSet : List StagedFile :=
  [ ⟨"src/old.py", GitStatus.D, true, ["from pruna_pro import smash"], []⟩ ]

/-! ## Theorems on the claims -/

/-- C1: the claim that the guard fails exactly when some staged diff line
contains the literal pruna_pro is false.  On `farNeedleChangeSet` the guard
exits 1, because `grep` reads the whole working-tree file, yet no line of
the staged diff contains the literal, the needle being outside the context
window of the only hunk. -/
theorem guard_is_not_a_diff_line_check :
    ¬ ∀ cs : List StagedFile,
        (checkPrunaProResult cs ≠ 0 ↔ stagedDiffHasNeedle cs = true) := by
  intro h
  have h1 := (h farNeedleChangeSet).mp (by decide)
  exact absurd h1 (by decide)

/-- C1 (amended): the guard fails exactly when it is dispatched (some
staged non-deleted text file lies under src/) and the full working-tree
content of some non-deleted staged file contains the literal pruna_pro; the
whole files are scanned, not only the staged diff lines. -/
theorem guard_rejects_iff_content_match (cs : List StagedFile) :
    checkPrunaProResult cs ≠ 0 ↔
      (hookTriggered cs = true ∧ (awkNonDeleted cs).any fileHasNeedle = true) := by
  unfold checkPrunaProResult checkPrunaProEntryExit grepQExit
  by_cases ht : hookTriggered cs
  · by_cases hm : (awkNonDeleted cs).any fileHasNeedle <;> simp [ht, hm]
  · simp [ht]

/-- C2: the hook entry is a binary gate: it exits 1 exactly when the grep
over the non-deleted staged files finds the literal pruna_pro, and exits 0
exactly otherwise; no other exit status occurs. -/
theorem entry_exit_is_binary (cs : List StagedFile) :
    (checkPrunaProEntryExit cs = 1 ↔ (awkNonDeleted cs).any fileHasNeedle = true) ∧
    (checkPrunaProEntryExit cs = 0 ↔ (awkNonDeleted cs).any fileHasNeedle = false) := by
  unfold checkPrunaProEntryExit grepQExit
  by_cases hm : (awkNonDeleted cs).any fileHasNeedle <;> simp [hm]

/-- C3: the claim that a staged file outside src/ can never cause the guard
to reject is false.  On `crossChangeSet` every staged file under src/ is
clean, yet the guard exits 1: the staged src/ file dispatches the hook and
the entry then greps every non-deleted staged file, including the one
outside src/ that contains the literal. -/
theorem filter_does_not_confine_scan :
    ¬ ∀ cs : List StagedFile,
        (∀ f ∈ cs, strStartsWith f.path "src/" = true → fileHasNeedle f = false) →
        checkPrunaProResult cs = 0 := by
  intro h
  exact absurd (h crossChangeSet (by decide)) (by decide)

/-- C3 (amended): the file filter governs dispatch only: when no staged
non-deleted text file lies under src/ the hook does not run and the guard
accepts, whatever any staged file contains; but once dispatched the entry
scans every non-deleted staged file regardless of path. -/
theorem guard_accepts_when_not_triggered (cs : List StagedFile)
    (h : hookTriggered cs = false) : checkPrunaProResult cs = 0 := by
  unfold checkPrunaProResult
  simp [h]

/-- Witness for the amended C3: a commit touching only a file outside src/
whose content contains the literal is accepted. -/
theorem guard_accepts_when_not_triggered_witness :
    hookTriggered outsideOnlyChangeSet = false ∧
      checkPrunaProResult outsideOnlyChangeSet = 0 :=
  ⟨by decide, guard_accepts_when_not_triggered outsideOnlyChangeSet (by decide)⟩

/-- C4: each tutorial notebook exercises the external API with the shared
call shape: a `SmashConfig()` construction, named options set by string key
assignment (each key naming a quantizer or a compiler), a `smash` call
passing exactly the keyword arguments model and smash_config, and a later
inference run through the returned object. -/
theorem tutorials_share_call_shape :
    tutorialNotebooks.all callShapeOK = true := by decide

/-- C5: the claim that the job's phases are exactly checkout, environment
setup, lint, dependency installation, type-check, and docstring-style test
is false: the job also contains a cleanup step deleting compiled .so files
between dependency installation and the type-check. -/
theorem ci_phase_list_omits_cleanup :
    ¬ (ciTrigger = ⟨"pull_request", ["main"]⟩ ∧
       ciPhases = [StepKind.checkout, StepKind.envSetup, StepKind.lint,
                   StepKind.depInstall, StepKind.typeCheck, StepKind.docTest]) := by
  decide

/-- C5 (amended): the workflow triggers on pull requests targeting main, and
the phases of its job are, in order: checkout, environment setup (Python and
Poetry), lint, dependency installation, a cleanup step removing compiled
.so files, type-check, and the docstring-style test run. -/
theorem ci_trigger_and_phases :
    ciTrigger = ⟨"pull_request", ["main"]⟩ ∧
    ciPhases = [StepKind.checkout, StepKind.envSetup, StepKind.lint,
                StepKind.depInstall, StepKind.cleanup, StepKind.typeCheck,
                StepKind.docTest] := by
  decide

/-- C6: the manifest declares extras bundles named stable-fast, dev, and
tests, each nonempty and consisting solely of dependencies declared
optional. -/
theorem extras_bundles_declared :
    extraDeclared "stable-fast" = true ∧ extraDeclared "dev" = true ∧
    extraDeclared "tests" = true ∧
    extraPackages "stable-fast" ≠ [] ∧ extraPackages "dev" ≠ [] ∧
    extraPackages "tests" ≠ [] ∧
    extraAllOptional "stable-fast" = true ∧ extraAllOptional "dev" = true ∧
    extraAllOptional "tests" = true := by decide

/-- C7: the pre-commit hooks and the CI workflow steps invoke the same
lint/type tools, namely ruff and mypy. -/
theorem precommit_ci_same_lint_type_tools :
    pcLintTypeTools = ciLintTypeTools ∧ ciLintTypeTools = ["ruff", "mypy"] := by
  decide

/-- C8: the supplied material totals exactly 605 lines over its five
documents, and every document is TOML, YAML, or JSON configuration or
notebook markup; none is program source. -/
theorem supplied_material_is_config :
    totalLineCount = 605 ∧
    suppliedFiles.all (fun f => isConfigFormat f.format) = true := by decide

/-- C9: every package of the stable-fast, onediff, and autoawq extras also
appears in the package list of the full extra. -/
theorem full_extra_covers_optimization_extras :
    (extraPackages "stable-fast").all (fun p => (extraPackages "full").contains p) = true ∧
    (extraPackages "onediff").all (fun p => (extraPackages "full").contains p) = true ∧
    (extraPackages "autoawq").all (fun p => (extraPackages "full").contains p) = true := by
  decide

/-- C10: when every staged file is either deleted or fails the hook's file
filter, the guard exits 0, whatever the deleted files used to contain: no
non-deleted matching file exists, so the hook is never dispatched. -/
theorem guard_accepts_deletion_only_sets (cs : List StagedFile)
    (h : ∀ f ∈ cs, f.status = GitStatus.D ∨ matchesHookFilter f = false) :
    checkPrunaProResult cs = 0 := by
  have ht : hookTriggered cs = false := by
    unfold hookTriggered
    rw [List.any_eq_false]
    intro f hf
    rcases h f hf with h1 | h1
    · simp [isDeleted, h1]
    · simp [h1]
  unfold checkPrunaProResult
  simp [ht]

/-- Witness for C10: a change set deleting one src/ file whose former
content mentioned the literal is accepted. -/
theorem guard_accepts_deletion_only_sets_witness :
    (∀ f ∈ deletionOnlyChangeSet,
        f.status = GitStatus.D ∨ matchesHookFilter f = false) ∧
      checkPrunaProResult deletionOnlyChangeSet = 0 :=
  ⟨by decide, guard_accepts_deletion_only_sets deletionOnlyChangeSet (by decide)⟩

end PrunaRepo
